import Mathlib

/-!
Verification of the pyLegoLLM byte-protocol core: shallow embedding of the
pure encoding/decoding functions and the port-notification state update,
with theorems settling the specification claims.

Sources embedded:
 - `calculate_motor_power`, `write_motor_power_command`
   (pyLegoLLM/devices/motor.py, also "working stuff/lego.py");
 - `parse_tilt_sensor_data`, the if/elif variant ("working stuff/distance.py")
   and the if/if variant ("working stuff/lego.py");
 - the distance branch of `sensor_notification_handler`
   ("working stuff/distance.py");
 - `Manager.port_notification_handler` (pyLegoLLM/manager.py);
 - `UUIDHelper.add_leading_zeroes` / `uuid_with_prefix_custom_base`
   (pyLegoLLM/ble/utils.py);
 - `LED.set_color`, `LED.blink`, `LED.stop_mode` (pyLegoLLM/devices/led.py).

Byte strings are modelled as `List Nat` (a Python `bytearray` element is
always in 0..255; theorems that need that bound take it as a hypothesis).
-/

/-! ## Motor command encoding (devices/motor.py) -/

/-- `Motor.calculate_motor_power` from pyLegoLLM/devices/motor.py (the same
function appears in "working stuff/lego.py" and "working stuff/distance.py"):
positive speeds pass through, negative speeds become `256 + power`, zero
stops the motor. -/
def calculate_motor_power (power : Int) : Int :=
  if power > 0 then power
  else if power < 0 then 256 + power
  else 0

/-- `Motor.write_motor_power_command`: the 4-byte motor command
`[port, 0x01, 0x01, motor_value]`. -/
def write_motor_power_command (motor_value : Int) (port : Int) : List Int :=
  [port, 0x01, 0x01, motor_value]

/-- Python's `bytearray(list)` constructor: succeeds exactly when every
element is in 0..255, otherwise raises (modelled as `none`). -/
def bytearray_of (xs : List Int) : Option (List Int) :=
  if xs.all (fun b => decide (0 ≤ b) && decide (b ≤ 255)) then some xs else none

/-! ## Theorems for C3 and C8 -/

/-- C3: `calculate_motor_power` returns `power` unchanged for `power` in
[1,100], returns `256 + power` (which lies in [156,255]) for `power` in
[-100,-1], and returns 0 at 0. -/
theorem C3_motor_power_encoding (power : Int) :
    (1 ≤ power → power ≤ 100 → calculate_motor_power power = power) ∧
    (-100 ≤ power → power ≤ -1 →
      calculate_motor_power power = 256 + power ∧
      156 ≤ calculate_motor_power power ∧ calculate_motor_power power ≤ 255) ∧
    (power = 0 → calculate_motor_power power = 0) := by
  unfold calculate_motor_power
  refine ⟨?_, ?_, ?_⟩ <;> intros <;> split <;> omega

theorem C3_motor_power_encoding_witness :
    calculate_motor_power 5 = 5 ∧
    calculate_motor_power (-50) = 256 + (-50) ∧
    calculate_motor_power 0 = 0 :=
  ⟨(C3_motor_power_encoding 5).1 (by decide) (by decide),
   ((C3_motor_power_encoding (-50)).2.1 (by decide) (by decide)).1,
   (C3_motor_power_encoding 0).2.2 rfl⟩

/-- C8: under the documented precondition `power` in [-100,100] and `port`
in [0,255], every byte of the encoded motor command
`[port, 0x01, 0x01, calculate_motor_power power]` lies in [0,255], so the
`bytearray` construction cannot fail. -/
theorem C8_motor_command_safety (port power : Int)
    (hp0 : 0 ≤ port) (hp1 : port ≤ 255)
    (hw0 : -100 ≤ power) (hw1 : power ≤ 100) :
    (∀ b ∈ write_motor_power_command (calculate_motor_power power) port,
        0 ≤ b ∧ b ≤ 255) ∧
    (bytearray_of (write_motor_power_command (calculate_motor_power power) port)
      = some (write_motor_power_command (calculate_motor_power power) port)) := by
  have hm : 0 ≤ calculate_motor_power power ∧ calculate_motor_power power ≤ 255 := by
    unfold calculate_motor_power
    split
    · omega
    · split <;> omega
  constructor
  · intro b hb
    simp only [write_motor_power_command, List.mem_cons] at hb
    rcases hb with h | h | h | h | h
    · subst h; omega
    · subst h; omega
    · subst h; omega
    · subst h; omega
    · cases h
  · have hcond : (write_motor_power_command (calculate_motor_power power) port).all
        (fun b => decide (0 ≤ b) && decide (b ≤ 255)) = true := by
      simp only [write_motor_power_command, List.all_cons, List.all_nil,
        Bool.and_eq_true, decide_eq_true_eq, and_true]
      omega
    unfold bytearray_of
    rw [if_pos hcond]

theorem C8_motor_command_safety_witness :
    bytearray_of (write_motor_power_command (calculate_motor_power (-50)) 0)
      = some (write_motor_power_command (calculate_motor_power (-50)) 0) :=
  (C8_motor_command_safety 0 (-50) (by decide) (by decide) (by decide) (by decide)).2

/-! ## Tilt sensor decoding ("working stuff/distance.py" and "working stuff/lego.py") -/

/-- The shared classification chain at the end of both `parse_tilt_sensor_data`
variants: a raw tilt value is mapped to one of the five direction strings by
exclusive-bound ranges, everything else (including the unset value -1)
falling through to "NO_TILT". -/
def tilt_direction (tilt : Int) : String :=
  if 10 < tilt ∧ tilt < 40 then "BACK"
  else if 60 < tilt ∧ tilt < 90 then "RIGHT"
  else if 170 < tilt ∧ tilt < 190 then "FORWARD"
  else if 220 < tilt ∧ tilt < 240 then "LEFT"
  else if 120 < tilt ∧ tilt < 140 then "NO_TILT"
  else "NO_TILT"

/-- `parse_tilt_sensor_data` from "working stuff/distance.py": the if/elif
variant, where the `data[3] ∈ \x7b38,39\x7d` branch wins when both marker bytes
match. Data shorter than 8 bytes returns "NO_TILT". -/
def parse_tilt_sensor_data (data : List Nat) : String :=
  if data.length < 8 then "NO_TILT"
  else
    let tilt : Int :=
      if data.getD 3 0 = 38 ∨ data.getD 3 0 = 39 then (data.getD 2 0 : Int)
      else if data.getD 5 0 = 38 ∨ data.getD 5 0 = 39 then (data.getD 4 0 : Int)
      else -1
    tilt_direction tilt

/-- `parse_tilt_sensor_data` from "working stuff/lego.py": the if/if variant,
where the second assignment (from `data[4]`) silently wins when both marker
bytes match. -/
def parse_tilt_sensor_data_lego (data : List Nat) : String :=
  if data.length < 8 then "NO_TILT"
  else
    let tilt0 : Int := -1
    let tilt1 : Int :=
      if data.getD 3 0 = 38 ∨ data.getD 3 0 = 39 then (data.getD 2 0 : Int) else tilt0
    let tilt : Int :=
      if data.getD 5 0 = 38 ∨ data.getD 5 0 = 39 then (data.getD 4 0 : Int) else tilt1
    tilt_direction tilt

/-- The five tilt readings of the spec's data model. -/
inductive TiltReading where
  | BACK | RIGHT | FORWARD | LEFT | NO_TILT
  deriving DecidableEq

/-- The string the source emits for each tilt reading. -/
def tiltReadingStr : TiltReading → String
  | TiltReading.BACK => "BACK"
  | TiltReading.RIGHT => "RIGHT"
  | TiltReading.FORWARD => "FORWARD"
  | TiltReading.LEFT => "LEFT"
  | TiltReading.NO_TILT => "NO_TILT"

/-- The reference definition of claim C1, written from the claim's words:
fewer than 8 bytes gives `none` (Invalid, distinct from every TiltReading);
otherwise tiltRaw is `bytes[2]` if `bytes[3] ∈ \x7b38,39\x7d`, else `bytes[4]` if
`bytes[5] ∈ \x7b38,39\x7d`, else -1, and the reading is classified by the ranges
(10,40)→BACK, (60,90)→RIGHT, (170,190)→FORWARD, (220,240)→LEFT, with NO_TILT
in every other case. -/
def decodeTiltNotification_claim (bytes : List Nat) : Option TiltReading :=
  if bytes.length < 8 then none
  else
    let tiltRaw : Int :=
      if bytes.getD 3 0 = 38 ∨ bytes.getD 3 0 = 39 then (bytes.getD 2 0 : Int)
      else if bytes.getD 5 0 = 38 ∨ bytes.getD 5 0 = 39 then (bytes.getD 4 0 : Int)
      else -1
    if 10 < tiltRaw ∧ tiltRaw < 40 then some TiltReading.BACK
    else if 60 < tiltRaw ∧ tiltRaw < 90 then some TiltReading.RIGHT
    else if 170 < tiltRaw ∧ tiltRaw < 190 then some TiltReading.FORWARD
    else if 220 < tiltRaw ∧ tiltRaw < 240 then some TiltReading.LEFT
    else some TiltReading.NO_TILT

/-- C1 (counterexample): the claim says fewer than 8 bytes yields Invalid,
a value distinct from every TiltReading. At the empty input the reference
yields `none` (Invalid), but `parse_tilt_sensor_data` yields "NO_TILT" — the
string of the TiltReading NO_TILT, not a distinct Invalid value. -/
theorem C1_tilt_decoder_counterexample :
    decodeTiltNotification_claim [] = none ∧
    parse_tilt_sensor_data [] = tiltReadingStr TiltReading.NO_TILT :=
  ⟨rfl, rfl⟩

/-- C1 (amended): `parse_tilt_sensor_data` agrees with the claim's reference
definition everywhere, except that an input of fewer than 8 bytes yields the
string "NO_TILT" (the same value as the NO_TILT reading) rather than a
distinct Invalid value. -/
theorem C1_tilt_decoder_amended (bytes : List Nat) :
    parse_tilt_sensor_data bytes =
      (decodeTiltNotification_claim bytes).elim "NO_TILT" tiltReadingStr := by
  unfold parse_tilt_sensor_data decodeTiltNotification_claim tilt_direction
  by_cases h : bytes.length < 8
  · simp [h]
  · simp only [if_neg h]
    split_ifs <;> rfl

/-- C6 (counterexample): the two tilt-decoder variants disagree when both
marker bytes are in \x7b38,39\x7d: on [0,0,15,38,80,38,0,0] the if/elif variant
(distance.py) takes tiltRaw = 15 and answers "BACK", while the if/if variant
(lego.py) takes tiltRaw = 80 and answers "RIGHT". -/
theorem C6_tilt_variants_counterexample :
    parse_tilt_sensor_data [0, 0, 15, 38, 80, 38, 0, 0] = "BACK" ∧
    parse_tilt_sensor_data_lego [0, 0, 15, 38, 80, 38, 0, 0] = "RIGHT" :=
  ⟨rfl, rfl⟩

/-- C6 (amended): the two tilt-decoder variants agree on every input of at
least 8 bytes in which not both marker bytes `bytes[3]` and `bytes[5]` lie in
\x7b38,39\x7d; when both do, the variants may disagree (lego.py lets the second
assignment win, distance.py the first). -/
theorem C6_tilt_variants_amended (data : List Nat) (h8 : 8 ≤ data.length)
    (hex : ¬((data.getD 3 0 = 38 ∨ data.getD 3 0 = 39) ∧
             (data.getD 5 0 = 38 ∨ data.getD 5 0 = 39))) :
    parse_tilt_sensor_data data = parse_tilt_sensor_data_lego data := by
  unfold parse_tilt_sensor_data parse_tilt_sensor_data_lego
  have h : ¬ data.length < 8 := by omega
  simp only [if_neg h]
  by_cases h3 : data.getD 3 0 = 38 ∨ data.getD 3 0 = 39 <;>
    by_cases h5 : data.getD 5 0 = 38 ∨ data.getD 5 0 = 39
  · exact absurd ⟨h3, h5⟩ hex
  · rw [if_pos h3, if_neg h5, if_pos h3]
  · rw [if_neg h3, if_pos h5, if_pos h5]
  · rw [if_neg h3, if_neg h5, if_neg h5, if_neg h3]

theorem C6_tilt_variants_amended_witness :
    parse_tilt_sensor_data [0, 0, 15, 38, 0, 0, 0, 0] =
      parse_tilt_sensor_data_lego [0, 0, 15, 38, 0, 0, 0, 0] :=
  C6_tilt_variants_amended [0, 0, 15, 38, 0, 0, 0, 0] (by decide) (by decide)

/-! ## Distance sensor decoding (distance branch of the sensor notification
handler, "working stuff/distance.py") -/

/-- The distance branch of `sensor_notification_handler` in
"working stuff/distance.py" (device type 35): requires exactly 8 bytes, and
if `data[5]` is one of 176..179 the reading is `(data[4] & 0xff) - 69`;
every other case is reported as invalid (`none`). -/
def sensor_distance_branch (data : List Nat) : Option Int :=
  if data.length = 8 then
    if data.getD 5 0 = 176 ∨ data.getD 5 0 = 177 ∨
       data.getD 5 0 = 178 ∨ data.getD 5 0 = 179 then
      some ((Nat.land (data.getD 4 0) 0xff : Int) - 69)
    else none
  else none

/-- Masking a byte-sized value with 0xff is the identity. -/
theorem land_255_of_lt : ∀ x : Nat, x < 256 → Nat.land x 255 = x := by
  set_option maxRecDepth 4096 in decide

/-- C2: on byte lists of exactly 8 bytes, the distance branch returns the
reading `bytes[4] - 69` (not clamped, possibly negative) exactly when
`bytes[5]` is one of 176, 177, 178, 179, and `none` (Invalid) otherwise;
inputs whose length is not 8 also give `none`. -/
theorem C2_distance_decoder (bytes : List Nat) (hb : ∀ b ∈ bytes, b < 256) :
    (bytes.length ≠ 8 → sensor_distance_branch bytes = none) ∧
    (bytes.length = 8 →
      ((sensor_distance_branch bytes = some ((bytes.getD 4 0 : Int) - 69)) ↔
        (bytes.getD 5 0 = 176 ∨ bytes.getD 5 0 = 177 ∨
         bytes.getD 5 0 = 178 ∨ bytes.getD 5 0 = 179)) ∧
      (¬(bytes.getD 5 0 = 176 ∨ bytes.getD 5 0 = 177 ∨
         bytes.getD 5 0 = 178 ∨ bytes.getD 5 0 = 179) →
        sensor_distance_branch bytes = none)) := by
  constructor
  · intro hlen
    unfold sensor_distance_branch
    rw [if_neg hlen]
  · intro hlen
    have h4 : bytes.getD 4 0 < 256 := by
      have hmem : bytes.getD 4 0 ∈ bytes := by
        rw [List.getD_eq_getElem bytes 0 (by omega)]
        exact List.getElem_mem (by omega)
      exact hb _ hmem
    have hland : Nat.land (bytes.getD 4 0) 0xff = bytes.getD 4 0 :=
      land_255_of_lt _ h4
    constructor
    · constructor
      · intro hres
        by_contra hmark
        unfold sensor_distance_branch at hres
        rw [if_pos hlen, if_neg hmark] at hres
        exact Option.noConfusion hres
      · intro hmark
        unfold sensor_distance_branch
        rw [if_pos hlen, if_pos hmark, hland]
    · intro hmark
      unfold sensor_distance_branch
      rw [if_pos hlen, if_neg hmark]

theorem C2_distance_decoder_witness :
    sensor_distance_branch [0, 0, 0, 0, 31, 177, 0, 0] = some (-38) := by
  have h := (C2_distance_decoder [0, 0, 0, 0, 31, 177, 0, 0] (by decide)).2 rfl
  have h31 : ((31 : Nat) : Int) - 69 = -38 := by decide
  exact h31 ▸ h.1.2 (by decide)

/-! ## Port notifications (pyLegoLLM/manager.py) -/

/-- The mutable state of `Manager` touched by `port_notification_handler`:
the distinguished motor port (`None` until a motor is seen) and the
port-to-device-type registry (a Python dict, modelled as a partial map). -/
structure ManagerState where
  motor_port : Option Nat
  port_devices : Nat → Option Nat

/-- The decoded port event the handler extracts from a well-formed packet:
`port_id = data[0]`, `is_connected = data[1]`, `device_type = data[3]`. -/
structure PortEvent where
  port_id : Nat
  is_connected : Nat
  device_type : Nat
  deriving DecidableEq

/-- `Manager.port_notification_handler` from pyLegoLLM/manager.py: on at
least 4 bytes it records `port_devices[data[0]] = data[3]` and, when
`data[1] == 1` and `data[3] == 1` and the motor port differs, points the
distinguished motor port at `data[0]`; on fewer than 4 bytes it only logs
("Incomplete data", modelled as `none`) and changes nothing. -/
def port_notification_handler (s : ManagerState) (data : List Nat) :
    Option PortEvent × ManagerState :=
  if 4 ≤ data.length then
    let port_id := data.getD 0 0
    let is_connected := data.getD 1 0
    let device_type := data.getD 3 0
    let devices : Nat → Option Nat :=
      fun p => if p = port_id then some device_type else s.port_devices p
    let mp : Option Nat :=
      if is_connected = 1 ∧ device_type = 1 then
        if s.motor_port ≠ some port_id then some port_id else s.motor_port
      else s.motor_port
    (some ⟨port_id, is_connected, device_type⟩, ⟨mp, devices⟩)
  else
    (none, s)

/-- C4: with at least 4 bytes the decoded event carries
`port = bytes[0]`, `is_connected = bytes[1]` (connected meaning
`bytes[1] ≠ 0`), `deviceType = bytes[3]`, and the registry entry for that
port is set to `bytes[3]`; with fewer than 4 bytes the handler reports
Incomplete (`none`) and leaves the registry and the motor port exactly as
they were. -/
theorem C4_port_notification_decode (s : ManagerState) (data : List Nat) :
    (4 ≤ data.length →
      (port_notification_handler s data).1 =
        some ⟨data.getD 0 0, data.getD 1 0, data.getD 3 0⟩ ∧
      (port_notification_handler s data).2.port_devices (data.getD 0 0) =
        some (data.getD 3 0)) ∧
    (data.length < 4 →
      (port_notification_handler s data).1 = none ∧
      (port_notification_handler s data).2 = s) := by
  constructor
  · intro hlen
    unfold port_notification_handler
    rw [if_pos hlen]
    exact ⟨rfl, by simp⟩
  · intro hlen
    unfold port_notification_handler
    rw [if_neg (by omega)]
    exact ⟨rfl, rfl⟩

theorem C4_port_notification_decode_witness :
    ((port_notification_handler ⟨none, fun _ => none⟩ [3, 1, 0, 1]).1 =
        some ⟨3, 1, 1⟩ ∧
      (port_notification_handler ⟨none, fun _ => none⟩ [3, 1, 0, 1]).2.port_devices 3 =
        some 1) ∧
    ((port_notification_handler ⟨none, fun _ => none⟩ [1, 2]).1 = none ∧
      (port_notification_handler ⟨none, fun _ => none⟩ [1, 2]).2 =
        (⟨none, fun _ => none⟩ : ManagerState)) :=
  ⟨(C4_port_notification_decode ⟨none, fun _ => none⟩ [3, 1, 0, 1]).1 (by decide),
   (C4_port_notification_decode ⟨none, fun _ => none⟩ [1, 2]).2 (by decide)⟩

/-- C5 (counterexample): the claim says a connected=0 notification leaves
the registry entry for the port removed or set to NONE (0). On the
disconnect packet [0,0,0,1] the handler stores the reported device type 1
for port 0 — the entry is present and not NONE. -/
theorem C5_disconnect_counterexample :
    (port_notification_handler ⟨none, fun _ => none⟩ [0, 0, 0, 1]).2.port_devices 0 =
      some 1 ∧
    some (1 : Nat) ≠ none ∧ some (1 : Nat) ≠ some 0 :=
  ⟨rfl, by decide, by decide⟩

/-- C5 (amended): a connected=0 notification of at least 4 bytes overwrites
the registry entry for port `bytes[0]` with the reported device type
`bytes[3]` (so it becomes NONE only when `bytes[3] = 0`; entries are never
removed), and leaves the distinguished motor port unchanged. -/
theorem C5_disconnect_amended (s : ManagerState) (data : List Nat)
    (h4 : 4 ≤ data.length) (hd : data.getD 1 0 = 0) :
    (port_notification_handler s data).2.port_devices (data.getD 0 0) =
      some (data.getD 3 0) ∧
    (port_notification_handler s data).2.motor_port = s.motor_port := by
  unfold port_notification_handler
  rw [if_pos h4]
  refine ⟨by simp, ?_⟩
  have hc : ¬(data.getD 1 0 = 1 ∧ data.getD 3 0 = 1) := by omega
  simp only [if_neg hc]

theorem C5_disconnect_amended_witness :
    (port_notification_handler ⟨none, fun _ => none⟩ [0, 0, 0, 1]).2.port_devices 0 =
      some 1 ∧
    (port_notification_handler ⟨none, fun _ => none⟩ [0, 0, 0, 1]).2.motor_port = none :=
  C5_disconnect_amended ⟨none, fun _ => none⟩ [0, 0, 0, 1] (by decide) (by decide)

/-- C9: the port-notification update is idempotent — processing the same
byte list twice from any starting state yields the same registry and motor
port as processing it once. -/
theorem C9_port_update_idempotent (s : ManagerState) (data : List Nat) :
    (port_notification_handler (port_notification_handler s data).2 data).2 =
      (port_notification_handler s data).2 := by
  by_cases hlen : 4 ≤ data.length
  · simp only [port_notification_handler, if_pos hlen, ManagerState.mk.injEq]
    constructor
    · split_ifs <;> simp_all
    · funext p
      by_cases hp : p = data.getD 0 0
      · rw [if_pos hp, if_pos hp]
      · rw [if_neg hp, if_neg hp]
  · simp only [port_notification_handler, if_neg hlen]

/-! ## UUID builder (pyLegoLLM/ble/utils.py)

Python strings are modelled as `List Char` so that the operations compute
(`str.lower` on the ASCII strings used here is per-character lowering,
slicing `[-8:]` keeps the last 8 characters, `[2:]` drops two). -/

/-- Python `str.startswith p` for the strings used here. -/
def py_startswith (s p : List Char) : Bool :=
  decide (s.take p.length = p)

/-- Python `str.lower` (per-character ASCII lowering; all characters in the
repository's inputs are ASCII). -/
def py_lower (s : List Char) : List Char :=
  s.map Char.toLower

/-- Python slicing `s[-8:]`: the last 8 characters (the whole string when it
is shorter, via truncated subtraction, exactly as in Python). -/
def py_last8 (s : List Char) : List Char :=
  s.drop (s.length - 8)

/-- `UUIDHelper.UUID_CUSTOM_BASE` from pyLegoLLM/ble/utils.py. -/
def UUID_CUSTOM_BASE : List Char :=
  "1212-EFDE-1523-785FEABCD123".data

/-- `UUIDHelper.add_leading_zeroes`: strips an optional "0x" and keeps the
last 8 characters of "00000000" followed by the rest. -/
def add_leading_zeroes (hexs : List Char) : List Char :=
  let stripped := if py_startswith hexs "0x".data then hexs.drop 2 else hexs
  py_last8 ("00000000".data ++ stripped)

/-- `UUIDHelper.uuid_with_prefix_custom_base`: the padded value, a dash, and
the lower-cased custom base. -/
def uuid_with_hex_custom_base (hexs : List Char) : List Char :=
  add_leading_zeroes hexs ++ "-".data ++ py_lower UUID_CUSTOM_BASE

/-- The reference definition of claim C7's amended statement, written from
the claim's words: the last 8 characters of "00000000" followed by the
input with an optional "0x" stripped, then "-", then the vendor base
lower-cased (the padded part keeps the case of the input). -/
def buildCharacteristicId_claim (s : List Char) : List Char :=
  py_last8 ("00000000".data ++ (if py_startswith s "0x".data then s.drop 2 else s)) ++
    "-".data ++ "1212-efde-1523-785feabcd123".data

/-- C7 (counterexample): the claim says the entire resulting identifier is
lower-cased, but only the vendor base is lowered: building from "0xAB"
yields "000000AB-1212-efde-1523-785feabcd123", which is not equal to its
own lower-casing. -/
theorem C7_uuid_counterexample :
    uuid_with_hex_custom_base "0xAB".data =
      "000000AB-1212-efde-1523-785feabcd123".data ∧
    py_lower (uuid_with_hex_custom_base "0xAB".data) ≠
      uuid_with_hex_custom_base "0xAB".data := by
  constructor
  · decide
  · decide

/-- C7 (amended): for every input the builder returns the last 8 characters
of "00000000" plus the 0x-stripped input, a dash, and the vendor base
lower-cased; the padded part keeps the input's case. Building from "0x1565"
and from "1565" yields the identical identifier. -/
theorem C7_uuid_builder_amended (s : List Char) :
    uuid_with_hex_custom_base s = buildCharacteristicId_claim s ∧
    uuid_with_hex_custom_base "0x1565".data = uuid_with_hex_custom_base "1565".data := by
  constructor
  · unfold uuid_with_hex_custom_base buildCharacteristicId_claim add_leading_zeroes
    have hbase : py_lower UUID_CUSTOM_BASE = "1212-efde-1523-785feabcd123".data := by
      decide
    rw [hbase]
  · decide

/-! ## LED device (pyLegoLLM/devices/led.py)

`LED` keeps one piece of state the claims touch: `_mode_task`, the running
blink/disco task (or `None`). Methods are modelled as functions from the
LED state to the new state paired with the list of commands written to the
output characteristic. `blink`'s while loop runs until a deadline; the
number of loop iterations the clock allows is passed explicitly. -/

/-- `LED.PREDEFINED_COLORS` from pyLegoLLM/devices/led.py. -/
def PREDEFINED_COLORS : List (List Char × (Nat × Nat × Nat)) :=
  [("red".data, (255, 0, 0)), ("green".data, (0, 255, 0)),
   ("blue".data, (0, 0, 255)), ("yellow".data, (255, 255, 0)),
   ("cyan".data, (0, 255, 255)), ("magenta".data, (255, 0, 255)),
   ("white".data, (255, 255, 255)), ("black".data, (0, 0, 0))]

/-- Python dict membership/lookup on the palette. -/
def palette_lookup (c : List Char) : Option (Nat × Nat × Nat) :=
  (PREDEFINED_COLORS.find? (fun p => decide (p.1 = c))).map (fun p => p.2)

/-- The LED state the claims touch: whether a blink/disco mode task is
currently running (`_mode_task is not None`). -/
structure LEDState where
  mode_task : Bool
  deriving DecidableEq

/-- `LED.stop_mode`: cancels any running blink/disco task. -/
def stop_mode (_s : LEDState) : LEDState :=
  ⟨false⟩

/-- `LED._send_led_color`: the 6-byte LED command `[0x06, 0x04, 0x03, r, g, b]`. -/
def led_color_command (r g b : Nat) : List Nat :=
  [0x06, 0x04, 0x03, r, g, b]

/-- `LED.set_color`: stops any running mode, lower-cases the name, and
either writes the palette command or (for an unknown name) only logs and
returns, writing nothing. -/
def set_color (s : LEDState) (color : List Char) : LEDState × List (List Nat) :=
  let s1 := stop_mode s
  match palette_lookup (py_lower color) with
  | none => (s1, [])
  | some (r, g, b) => (s1, [led_color_command r g b])

/-- The command sequence `LED.blink`'s inner task writes while the deadline
has not passed: the toggle starts at True (colored), alternating with off. -/
def blink_toggles (r g b : Nat) : Bool → Nat → List (List Nat)
  | _, 0 => []
  | toggle, n + 1 =>
    (if toggle then led_color_command r g b else led_color_command 0 0 0) ::
      blink_toggles r g b (!toggle) n

/-- `LED.blink`: stops any running mode, lower-cases the name; for an
unknown name only logs and returns (no write, no new task); otherwise runs
the blink task (`iters` loop iterations fit before the deadline) and ends
by leaving the LED on in the requested color. -/
def blink (s : LEDState) (color : List Char) (iters : Nat) :
    LEDState × List (List Nat) :=
  let s1 := stop_mode s
  match palette_lookup (py_lower color) with
  | none => (s1, [])
  | some (r, g, b) =>
    (⟨true⟩, blink_toggles r g b true iters ++ [led_color_command r g b])

/-- C10: for a color name whose lower-casing is not in the palette,
`set_color` and `blink` write no command at all and still leave the mode
task cancelled; for a name differing only in case from a palette entry,
`set_color` writes exactly that entry's command and `blink` also sends it. -/
theorem C10_led_unknown_color (s : LEDState) (color : List Char) (iters : Nat) :
    (palette_lookup (py_lower color) = none →
      set_color s color = (⟨false⟩, []) ∧ blink s color iters = (⟨false⟩, [])) ∧
    (∀ r g b, palette_lookup (py_lower color) = some (r, g, b) →
      (set_color s color).2 = [led_color_command r g b] ∧
      led_color_command r g b ∈ (blink s color iters).2) := by
  constructor
  · intro hmiss
    unfold set_color blink
    rw [hmiss]
    exact ⟨rfl, rfl⟩
  · intro r g b hhit
    unfold set_color blink
    rw [hhit]
    exact ⟨rfl, List.mem_append_right _ (List.mem_singleton.mpr rfl)⟩

theorem C10_led_unknown_color_witness :
    (set_color ⟨true⟩ "purple".data = (⟨false⟩, []) ∧
      blink ⟨true⟩ "purple".data 3 = (⟨false⟩, [])) ∧
    ((set_color ⟨true⟩ "RED".data).2 = [led_color_command 255 0 0] ∧
      led_color_command 255 0 0 ∈ (blink ⟨true⟩ "RED".data 3).2) :=
  ⟨(C10_led_unknown_color ⟨true⟩ "purple".data 3).1 (by decide),
   (C10_led_unknown_color ⟨true⟩ "RED".data 3).2 255 0 0 (by decide)⟩
